import Mathlib

/-!
# DiscordVim — verification of the keystroke router and channel-switch watcher

Shallow embedding of the two source files of the DiscordVim repository:

* `DiscordVim.uc.js` — the version 2.5 userscript (an IIFE installing two
  keydown listeners and two chained `MutationObserver`s);
* the version 3.0 module class (`module.exports = class DiscordVim`), whose
  constructor defines the same behaviour as named closures plus
  `start` / `stop` lifecycle methods.

Each event handler is embedded as a pure function from an abstract snapshot of
the page (`Dom`) and the incoming keyboard event (`KeyEvent`) to the list of
timed side effects it performs, in program order.  A delay tag (milliseconds,
`0` for synchronous effects) records `setTimeout` scheduling; nested timeouts
are flattened to their cumulative delay.  A thrown `TypeError` (a property
access or method call on `null`/`undefined`) is recorded as an
`Effect.jsError` that terminates the synchronous effect sequence, exactly as
an exception aborts the rest of the handler while keeping the effects already
performed.
-/

/-- Identifies the two mutation observers of the channel-switch watcher:
`channelSwitchStart` (phase 1, v2.5 line 171 / v3.0 line 143) and
`channelSwitchEnd` (phase 2, v2.5 line 190 / v3.0 line 155). -/
inductive ObserverId where
  | switchStart
  | switchEnd
deriving DecidableEq

/-- Target of a `dispatchEvent` call: a DOM element (identified by an abstract
reference) or the `document` object. -/
inductive Target where
  | el : Nat → Target
  | doc
deriving DecidableEq

/-- The option bag passed to `new KeyboardEvent('keydown', {...})`.  A field is
`none` when the corresponding property is not present in the object literal at
the construction site. -/
structure SynthEvent where
  key : String
  bubbles : Bool
  keyCode : Option Nat
  which : Option Nat
  shiftKey : Option Bool
  ctrlKey : Option Bool
  altKey : Option Bool
deriving DecidableEq

/-- One observable side effect performed by a handler. -/
inductive Effect where
  | stopImmediateProp
  | preventDefault
  | dispatch : Target → SynthEvent → Effect
  | click : Nat → Effect
  | focusEl : Nat → Effect
  | scrollIntoView : Nat → Effect
  | historyBack
  | historyForward
  | observe : ObserverId → Nat → Effect
  | disconnect : ObserverId → Effect
  | collapseSelection : Nat → Nat → Effect
  | consoleLog : String → Effect
  | jsError : String → Effect
deriving DecidableEq

/-- An effect tagged with the cumulative `setTimeout` delay (in milliseconds;
`0` = synchronous) after which it runs. -/
abbrev TimedEffect := Nat × Effect

/-- The fields of the incoming keydown event that the handlers read. -/
structure KeyEvent where
  key : String
  altKey : Bool
  ctrlKey : Bool
  shiftKey : Bool
deriving DecidableEq

/-- A node appearing in `MutationRecord.removedNodes`; the only thing the code
asks of it is whether it matches `'[data-list-id="chat-messages"] li'`. -/
structure NodeM where
  matchesChatMsgLi : Bool
deriving DecidableEq

/-- A `MutationRecord`; the code reads only `removedNodes`. -/
structure MutationRec where
  removedNodes : List NodeM
deriving DecidableEq

/-- JavaScript `String.prototype.toLowerCase`, character-wise (ASCII). -/
def jsToLower (s : String) : String := ⟨s.data.map Char.toLower⟩

/-- JavaScript loose equality `a == b` between an `Element | null` left operand
and an `Element | undefined` right operand: `null == undefined` is `true`,
element references compare by identity. -/
def jsLooseEq : Option Nat → Option Nat → Bool
  | none, none => true
  | some a, some b => a == b
  | _, _ => false

/-- JavaScript strict equality `a === b` between an `Element | null` left
operand and an `Element | undefined` right operand: `null === undefined` is
`false`. -/
def jsStrictEq : Option Nat → Option Nat → Bool
  | some a, some b => a == b
  | _, _ => false

/-- JavaScript `s.split(sep).at(-1)` (equally `.pop()`): the last piece of the
split; `split` always yields at least one piece, so the default is never
used. -/
def jsSplitLast (s sep : String) : String := (s.splitOn sep).getLastD ""

/-- JavaScript truthiness of an array value.  Arrays are objects and every
object is truthy, so the result does not depend on the array's contents: the
v2.5 phase-1 observer tests the result of `Array.prototype.filter` directly
(line 173), and that test can never fail. -/
def jsTruthyArray (_ : List NodeM) : Bool := true

/-- Helper for `jsIncludes`: whether `s` is a prefix of `l` (character
lists). -/
def listPre (s l : List Char) : Bool :=
  match s, l with
  | [], _ => true
  | _ :: _, [] => false
  | a :: s', b :: l' => a == b && listPre s' l'

/-- Helper for `jsIncludes`: whether `s` occurs as a contiguous slice of
`l`. -/
def listSub (s l : List Char) : Bool :=
  match l with
  | [] => listPre s []
  | _ :: l' => listPre s l || listSub s l'

/-- JavaScript `s.includes(sub)`: substring test; every string includes the
empty string. -/
def jsIncludes (s sub : String) : Bool := listSub sub.data s.data

/-- Abstract snapshot of the host page at the moment a handler runs.  Each
field records the result of one of the `querySelector` calls the two source
files perform (the selector is given in the comment; `25`/`30` suffixes
distinguish the v2.5 and v3.0 selector variants where they differ), plus the
element-graph accessors (`children[0]`, `.id`, `.textContent`,
`parentElement.matches(...)`) and the state of `document.activeElement`. -/
structure Dom where
  /-- `#app-mount` (both versions). -/
  appMount : Option Nat
  /-- `[class*="message"][class*="selected"]` (v2.5 line 37 / v3.0
  `SELECTORS.selectedMsg`). -/
  selectedMsg : Option Nat
  /-- last element of `querySelectorAll('[data-list-item-id^="chat-messages"]')`
  (`.pop()` of the spread), `none` when the list is empty (both versions use
  this same selector). -/
  lastChatItem : Option Nat
  /-- v2.5 `div[class*="selected_"] a[class*="anchor"]` (line 56). -/
  selectedAnchor25 : Option Nat
  /-- v2.5 `div[class*="selected_"] [class^="clickableWrapper_"]` (line 59). -/
  selectedClickable25 : Option Nat
  /-- v3.0 `selected.querySelector('div[aria-label="Play"][role="button"]')`. -/
  selPlay30 : Option Nat
  /-- v3.0 `selected.querySelector('a[class*="anchor"]')`. -/
  selAnchor30 : Option Nat
  /-- v3.0 `selected.querySelector('[class*="clickableWrapper"]')`. -/
  selClickable30 : Option Nat
  /-- v2.5 `el.parentElement.matches('[class*="repliedTextContent_"]')`. -/
  parentReplied25 : Nat → Bool
  /-- v3.0 `el.parentElement.matches('[class*="repliedTextContent"]')`. -/
  parentReplied30 : Nat → Bool
  /-- v2.5 `div[class*="selected_"][class*="hasReply_"]` (line 65). -/
  selectedHasReply25 : Option Nat
  /-- v3.0 `div[class*="selected"][class*="hasReply"]` (`SELECTORS.hasReply`). -/
  selectedHasReply30 : Option Nat
  /-- v2.5 `selectedMessage.querySelector('div[class*="repliedTextPreview_"]')`. -/
  replyPreview25 : Option Nat
  /-- v3.0 `selected.querySelector('div[class*="repliedTextPreview"]')`. -/
  replyPreview30 : Option Nat
  /-- `el.children[0]`, `none` when the element has no element children. -/
  children0 : Nat → Option Nat
  /-- `el.id`. -/
  elemId : Nat → String
  /-- v2.5 `document.querySelector('#chat-messages_' + replyId)`, keyed by
  `replyId`. -/
  byReplyId25 : String → Option Nat
  /-- v3.0 `document.querySelector('[id*="chat-messages"][id*="(replyId)"]')`,
  keyed by the interpolated `replyId` string. -/
  byReplyId30 : String → Option Nat
  /-- `div[role="textbox"]` (both versions). -/
  textbox : Option Nat
  /-- `el.textContent`. -/
  textContent : Nat → String
  /-- v2.5 `[class^="backdrop-"]` (line 127). -/
  backdrop25 : Option Nat
  /-- v3.0 `[class*="backdrop"]` (`SELECTORS.backdrop`). -/
  backdrop30 : Option Nat
  /-- v2.5 `[class^="barButtonMain"]` (line 142). -/
  jumpBtn25 : Option Nat
  /-- v3.0 `[class*="barButtonMain"]` (`SELECTORS.jumpButton`). -/
  jumpBtn30 : Option Nat
  /-- v2.5 `[class^="scrollerInner"] > *:nth-last-child(2)` (line 147). -/
  scrollerLast25 : Option Nat
  /-- v3.0 `[class*="scrollerInner"] > *:nth-last-child(2)`. -/
  scrollerLast30 : Option Nat
  /-- v2.5 `[class*="editor_"]` (line 150). -/
  editor25 : Option Nat
  /-- v3.0 `[class*="editor"][class*="slateTextArea"]` (`SELECTORS.textEditor`). -/
  editor30 : Option Nat
  /-- v2.5 `div[class*="chat_"]` (line 101). -/
  chat25 : Option Nat
  /-- v3.0 `div[class*="chat"]` (`SELECTORS.chatContainer`). -/
  chat30 : Option Nat
  /-- `[data-list-id="chat-messages"] li` (both versions, phase-2 observer). -/
  chatMsgLi : Option Nat
  /-- `document.activeElement.isContentEditable`. -/
  activeContentEditable : Bool
  /-- `document.activeElement.nodeName`. -/
  activeNodeName : String

/-- The typing-focus guard shared by both versions: v3.0's `isInputActive`
closure (part_000 lines 46-49); v2.5 writes the identical expression inline
(line 32 and line 112). -/
def isInputActive (d : Dom) : Bool :=
  d.activeContentEditable || d.activeNodeName == "INPUT"
    || d.activeNodeName == "TEXTAREA"

/-- The `KeyboardEvent` literal of the v2.5 j/k message-navigation branch
(lines 42-45): arrow key, `bubbles: true`, nothing else. -/
def navEvt25 (key : String) : SynthEvent :=
  ⟨(if key = "j" then "ArrowDown" else "ArrowUp"), true, none, none, none, none, none⟩

/-- The `KeyboardEvent` literal of the v3.0 `dispatchNavKey` closure (part_000
lines 53-59): arrow key, `bubbles: true`, `keyCode` 40/38. -/
def navEvt30 (dir : String) : SynthEvent :=
  ⟨(if dir = "down" then "ArrowDown" else "ArrowUp"), true,
    some (if dir = "down" then 40 else 38), none, none, none, none⟩

/-- The `KeyboardEvent` literal dispatched at `document` by the Alt+j/k branch
(v2.5 lines 91-99 and v3.0 lines 200-208, which are identical): arrow key,
`keyCode`, `which`, `bubbles: true`, and the incoming event's shift/ctrl/alt
flags. -/
def altNavEvt (e : KeyEvent) (key : String) : SynthEvent :=
  ⟨(if key = "j" then "ArrowDown" else "ArrowUp"), true,
    some (if key = "j" then 40 else 38), some (if key = "j" then 40 else 38),
    some e.shiftKey, some e.ctrlKey, some e.altKey⟩

/-- The `{key: 'Tab', bubbles: true}` literal (v2.5 lines 153-156 and 203-206;
v3.0 lines 77 and 164). -/
def tabEvt : SynthEvent := ⟨"Tab", true, none, none, none, none, none⟩

/-- The `{key: 'ArrowUp', bubbles: true, keyCode: 38}` literal (v2.5 lines
158-163 and 208-213; v3.0 lines 80 and 166). -/
def upEvt38 : SynthEvent := ⟨"ArrowUp", true, some 38, none, none, none, none⟩

/-- The `{key: 'ArrowUp', bubbles: true}` literal of the v2.5 p handler
(lines 73-76). -/
def plainUpEvt : SynthEvent := ⟨"ArrowUp", true, none, none, none, none, none⟩

/-- The `{key: 'Escape', which: 27, bubbles: true}` literal dispatched at the
image-viewer backdrop (v2.5 lines 130-134; v3.0 line 227). -/
def escEvt27 : SynthEvent := ⟨"Escape", true, none, some 27, none, none, none⟩

/-- Shallow embedding of the body of the v2.5 `#app-mount` keydown listener
after the quick-switcher check and the propagation suppression
(DiscordVim.uc.js lines 32-79): the typing-focus guard followed by the j/k
message navigation, the `o` open-attachment branch and the `p` jump-to-parent
branch.  Throws (`Effect.jsError`) where the source dereferences a `null` /
`undefined` query result: `document.querySelector('#app-mount')` when absent
(line 50), `replyBtn.children[0].id` (line 69), `reply.children[0].focus()`
(line 72). -/
def appActions25 (d : Dom) (e : KeyEvent) : List TimedEffect :=
  let key := jsToLower e.key
  if isInputActive d then []
  else if key = "j" ∨ key = "k" then
    if key = "j" ∧ jsLooseEq d.selectedMsg d.lastChatItem then []
    else
      match d.selectedMsg with
      | some m => [(0, Effect.dispatch (Target.el m) (navEvt25 key))]
      | none =>
        match d.appMount with
        | some a => [(0, Effect.dispatch (Target.el a) (navEvt25 key))]
        | none => [(0, Effect.jsError "dispatchEvent of null")]
  else if key = "o" then
    match d.selectedAnchor25 with
    | some link =>
      if d.parentReplied25 link then
        match d.selectedClickable25 with
        | some img => [(0, Effect.click img)]
        | none => []
      else [(0, Effect.click link)]
    | none =>
      match d.selectedClickable25 with
      | some img => [(0, Effect.click img)]
      | none => []
  else if key = "p" then
    match d.selectedHasReply25 with
    | none => []
    | some _ =>
      (0, Effect.preventDefault) ::
      (match d.replyPreview25 with
       | none => [(0, Effect.jsError "children of null")]
       | some btn =>
         match d.children0 btn with
         | none => [(0, Effect.jsError "id of undefined")]
         | some c0 =>
           (0, Effect.click btn) ::
           (match d.byReplyId25 (jsSplitLast (d.elemId c0) "-") with
            | none => [(0, Effect.jsError "children of null")]
            | some reply =>
              match d.children0 reply with
              | none => [(0, Effect.jsError "focus of undefined")]
              | some rc =>
                (0, Effect.focusEl rc) ::
                (match d.appMount with
                 | some a => [(0, Effect.dispatch (Target.el a) plainUpEvt)]
                 | none => [(0, Effect.jsError "dispatchEvent of null")])))
  else []

/-- Shallow embedding of the v2.5 `#app-mount` keydown listener
(DiscordVim.uc.js lines 21-80): the Ctrl+k quick-switcher early return (line
25), then `stopImmediatePropagation` when Alt is not held and the lowercase
key is j, k, o or p (lines 28-30), then `appActions25`. -/
def appKeydown25 (d : Dom) (e : KeyEvent) : List TimedEffect :=
  let key := jsToLower e.key
  if e.ctrlKey ∧ key = "k" then []
  else
    (if ¬e.altKey ∧ (key = "j" ∨ key = "k" ∨ key = "o" ∨ key = "p")
      then [(0, Effect.stopImmediateProp)] else [])
    ++ appActions25 d e

/-- Shallow embedding of the tail of the v2.5 Escape / Ctrl+[ branch
(DiscordVim.uc.js lines 150-164): query the composer bar, focus it, dispatch a
synthetic Tab, and after 5 ms a synthetic ArrowUp; `bar.focus()` throws when
the editor is absent (line 152). -/
def escTail25 (d : Dom) : List TimedEffect :=
  match d.editor25 with
  | none => [(0, Effect.jsError "focus of null")]
  | some bar =>
    [(0, Effect.focusEl bar), (0, Effect.dispatch (Target.el bar) tabEvt),
     (5, Effect.dispatch (Target.el bar) upEvt38)]

/-- Shallow embedding of the v2.5 document-level keydown listener
(DiscordVim.uc.js lines 82-168): the Alt branch (history navigation and
channel navigation with the phase-1 observer attach), the `i` focus-textbox
branch, the Ctrl+[-with-backdrop branch, and the Escape / Ctrl+[
focus-last-message branch.  Throws where the source dereferences a `null`
query result: `el.focus()` with no textbox (line 115), the scroller fallback
(line 147) and `bar.focus()` (line 152). -/
def docKeydown25 (d : Dom) (e : KeyEvent) : List TimedEffect :=
  let key := jsToLower e.key
  if e.altKey then
    if key = "h" then [(0, Effect.historyBack)]
    else if key = "l" then [(0, Effect.historyForward)]
    else if key = "j" ∨ key = "k" then
      (0, Effect.dispatch Target.doc (altNavEvt e key)) ::
      (match d.chat25 with
       | some c => [(0, Effect.observe ObserverId.switchStart c)]
       | none => [])
    else []
  else if key = "i" ∧ ¬d.activeContentEditable ∧ d.activeNodeName ≠ "INPUT"
      ∧ d.activeNodeName ≠ "TEXTAREA" ∧ ¬(e.ctrlKey ∧ e.shiftKey) then
    (0, Effect.preventDefault) ::
    (match d.textbox with
     | none => [(0, Effect.jsError "focus of null")]
     | some el =>
       (0, Effect.focusEl el) ::
       (if 0 < (d.textContent el).length ∧ d.textContent el ≠ "\uFEFF"
        then [(25, Effect.collapseSelection el 1)] else []))
  else if e.ctrlKey ∧ e.key = "[" ∧ d.backdrop25.isSome then
    match d.backdrop25 with
    | some b =>
      [(0, Effect.dispatch (Target.el b) escEvt27), (0, Effect.consoleLog "escaped")]
    | none => []
  else if e.key = "Escape" ∨ (e.ctrlKey ∧ e.key = "[") then
    match d.jumpBtn25 with
    | some b => (0, Effect.click b) :: escTail25 d
    | none =>
      match d.scrollerLast25 with
      | some s' => (0, Effect.scrollIntoView s') :: escTail25 d
      | none => [(0, Effect.jsError "scrollIntoView of null")]
  else []

/-- Shallow embedding of the v2.5 `channelSwitchStart` observer callback
(DiscordVim.uc.js lines 171-188).  `mutations[0]` on an empty batch would
throw; the condition tests the result of `Array.prototype.filter` directly
(`jsTruthyArray`), so it always holds; on a missing chat container the
delayed `channelSwitchEnd.observe(null)` throws inside the timeout. -/
def cbStart25 (d : Dom) (muts : List MutationRec) : List TimedEffect :=
  match muts with
  | [] => [(0, Effect.jsError "removedNodes of undefined")]
  | m :: _ =>
    if jsTruthyArray (m.removedNodes.filter (fun n => n.matchesChatMsgLi)) then
      (match d.chat25 with
       | some c => (25, Effect.observe ObserverId.switchEnd c)
       | none => (25, Effect.jsError "observe of null")) ::
      [(0, Effect.disconnect ObserverId.switchStart)]
    else []

/-- Shallow embedding of the v2.5 `channelSwitchEnd` observer callback
(DiscordVim.uc.js lines 190-221): when `'[data-list-id="chat-messages"] li'`
is present, schedule (25 ms) the scroll of the second-to-last scroller child,
the composer focus, a synthetic Tab and (5 ms later) a synthetic ArrowUp, and
disconnect; `lastMsg.scrollIntoView()` (line 200) and `bar.focus()` (line
202) throw when their elements are absent. -/
def cbEnd25 (d : Dom) : List TimedEffect :=
  match d.chatMsgLi with
  | none => []
  | some _ =>
    (match d.scrollerLast25 with
     | none => [(25, Effect.jsError "scrollIntoView of null")]
     | some lastMsg =>
       (25, Effect.scrollIntoView lastMsg) ::
       (match d.editor25 with
        | none => [(25, Effect.jsError "focus of null")]
        | some bar =>
          [(25, Effect.focusEl bar), (25, Effect.dispatch (Target.el bar) tabEvt),
           (30, Effect.dispatch (Target.el bar) upEvt38)]))
    ++ [(0, Effect.disconnect ObserverId.switchEnd)]

/-- Shallow embedding of the v3.0 `focusTextbox` closure (part_000 lines
85-93): focus the `div[role="textbox"]` element if present, and when it has
non-trivial text content, collapse the selection to its end after 25 ms
(`TIMING.focusDelay`). -/
def focusTextbox30 (d : Dom) : List TimedEffect :=
  match d.textbox with
  | none => []
  | some el =>
    (0, Effect.focusEl el) ::
    (if 0 < (d.textContent el).length ∧ d.textContent el ≠ "\uFEFF"
     then [(25, Effect.collapseSelection el 1)] else [])

/-- Shallow embedding of the v3.0 `focusLastMessage` closure (part_000 lines
62-82): click the jump button and return when it exists; otherwise scroll the
second-to-last scroller child into view, then focus the editor and dispatch
Tab and (5 ms, `TIMING.keyDispatch`) ArrowUp; each query is null-guarded. -/
def focusLastMessage30 (d : Dom) : List TimedEffect :=
  match d.jumpBtn30 with
  | some b => [(0, Effect.click b)]
  | none =>
    match d.scrollerLast30 with
    | none => []
    | some lastItem =>
      (0, Effect.scrollIntoView lastItem) ::
      (match d.editor30 with
       | none => []
       | some ed =>
         [(0, Effect.focusEl ed), (0, Effect.dispatch (Target.el ed) tabEvt),
          (5, Effect.dispatch (Target.el ed) upEvt38)])

/-- Shallow embedding of the v3.0 `navigateMessage` closure (part_000 lines
96-102): a typing-focus guard, the strict-equality last-message guard for the
`down` direction, and a `dispatchNavKey` at the selected message or, failing
that, at `#app-mount` (`dispatchEvent` on `null` throws when both are
absent). -/
def navigateMessage30 (d : Dom) (dir : String) : List TimedEffect :=
  if isInputActive d then []
  else if dir = "down" ∧ jsStrictEq d.selectedMsg d.lastChatItem then []
  else
    match d.selectedMsg with
    | some m => [(0, Effect.dispatch (Target.el m) (navEvt30 dir))]
    | none =>
      match d.appMount with
      | some a => [(0, Effect.dispatch (Target.el a) (navEvt30 dir))]
      | none => [(0, Effect.jsError "dispatchEvent of null")]

/-- Shallow embedding of the v3.0 `openAttachment` closure (part_000 lines
105-122): inside the selected message, try the video Play button, then a
link anchor, then a clickable image wrapper, clicking the first candidate
whose parent is not the replied-message preview text. -/
def openAttachment30 (d : Dom) : List TimedEffect :=
  match d.selectedMsg with
  | none => []
  | some _ =>
    match d.selPlay30 with
    | some el =>
      if d.parentReplied30 el then
        match d.selAnchor30 with
        | some el2 =>
          if d.parentReplied30 el2 then
            match d.selClickable30 with
            | some el3 =>
              if d.parentReplied30 el3 then [] else [(0, Effect.click el3)]
            | none => []
          else [(0, Effect.click el2)]
        | none =>
          match d.selClickable30 with
          | some el3 =>
            if d.parentReplied30 el3 then [] else [(0, Effect.click el3)]
          | none => []
      else [(0, Effect.click el)]
    | none =>
      match d.selAnchor30 with
      | some el2 =>
        if d.parentReplied30 el2 then
          match d.selClickable30 with
          | some el3 =>
            if d.parentReplied30 el3 then [] else [(0, Effect.click el3)]
          | none => []
        else [(0, Effect.click el2)]
      | none =>
        match d.selClickable30 with
        | some el3 =>
          if d.parentReplied30 el3 then [] else [(0, Effect.click el3)]
        | none => []

/-- Shallow embedding of the v3.0 `jumpToParent` closure (part_000 lines
125-139): guards on the selected-reply query and the typing focus, prevents
default, reads `replyBtn.children[0]?.id.split('-').pop()` (the whole chain
short-circuits to `undefined` when there is no first child, and the later
template interpolation then uses the string `"undefined"`), clicks the reply
preview, and after 1000 ms (`TIMING.animationBuffer`) focuses the first child
of the located parent message, every step optional-chained. -/
def jumpToParent30 (d : Dom) : List TimedEffect :=
  match d.selectedHasReply30 with
  | none => []
  | some _ =>
    if isInputActive d then []
    else
      (0, Effect.preventDefault) ::
      (match d.replyPreview30 with
       | none => []
       | some btn =>
         let replyId : Option String :=
           (d.children0 btn).map (fun c0 => jsSplitLast (d.elemId c0) "-")
         (0, Effect.click btn) ::
         (match d.byReplyId30 (match replyId with
                               | some r => r
                               | none => "undefined") with
          | none => []
          | some parentMsg =>
            match d.children0 parentMsg with
            | none => []
            | some c => [(1000, Effect.focusEl c)]))

/-- Shallow embedding of the v3.0 `handleAppKeydown` closure (part_000 lines
175-189): the Ctrl+k quick-switcher early return, `stopImmediatePropagation`
when Alt is not held and `'jkop'.includes(key)` (a substring test on the
lowercase key), the typing-focus guard, then dispatch to `navigateMessage`,
`openAttachment` or `jumpToParent`. -/
def appKeydown30 (d : Dom) (e : KeyEvent) : List TimedEffect :=
  let key := jsToLower e.key
  if e.ctrlKey ∧ key = "k" then []
  else
    (if ¬e.altKey ∧ jsIncludes "jkop" key
      then [(0, Effect.stopImmediateProp)] else [])
    ++ (if isInputActive d then []
        else if key = "j" then navigateMessage30 d "down"
        else if key = "k" then navigateMessage30 d "up"
        else if key = "o" then openAttachment30 d
        else if key = "p" then jumpToParent30 d
        else [])

/-- Shallow embedding of the v3.0 `handleDocKeydown` closure (part_000 lines
192-232): the Alt branch (history and channel navigation with the phase-1
observer attach, the chat-container query null-guarded), the `i`
focus-textbox branch, and the Escape / Ctrl+[ branch that dispatches Escape
at the backdrop when the image viewer is open and otherwise calls
`focusLastMessage`. -/
def docKeydown30 (d : Dom) (e : KeyEvent) : List TimedEffect :=
  let key := jsToLower e.key
  if e.altKey then
    if key = "h" then [(0, Effect.historyBack)]
    else if key = "l" then [(0, Effect.historyForward)]
    else if key = "j" ∨ key = "k" then
      (0, Effect.dispatch Target.doc (altNavEvt e key)) ::
      (match d.chat30 with
       | some c => [(0, Effect.observe ObserverId.switchStart c)]
       | none => [])
    else []
  else if key = "i" ∧ ¬isInputActive d ∧ ¬(e.ctrlKey ∧ e.shiftKey) then
    (0, Effect.preventDefault) :: focusTextbox30 d
  else if e.key = "Escape" ∨ (e.ctrlKey ∧ e.key = "[") then
    match d.backdrop30 with
    | some b => [(0, Effect.dispatch (Target.el b) escEvt27)]
    | none => focusLastMessage30 d
  else []

/-- Shallow embedding of the v3.0 `channelSwitchStart` observer callback
(part_000 lines 143-153): trigger on any removed nodes of the first record
(the comment in the source says this preserves the original behaviour); the
delayed attach of `channelSwitchEnd` is guarded on the chat container. -/
def cbStart30 (d : Dom) (muts : List MutationRec) : List TimedEffect :=
  match muts with
  | [] => [(0, Effect.jsError "removedNodes of undefined")]
  | m :: _ =>
    if 0 < m.removedNodes.length then
      (match d.chat30 with
       | some c => [(25, Effect.observe ObserverId.switchEnd c)]
       | none => [])
      ++ [(0, Effect.disconnect ObserverId.switchStart)]
    else []

/-- Shallow embedding of the v3.0 `channelSwitchEnd` observer callback
(part_000 lines 155-171): when `'[data-list-id="chat-messages"] li'` is
present, schedule (25 ms) the scroll / focus / Tab / delayed ArrowUp
auto-focus sequence — returning early when the scroller child or the editor
is absent — and disconnect. -/
def cbEnd30 (d : Dom) : List TimedEffect :=
  match d.chatMsgLi with
  | none => []
  | some _ =>
    (match d.scrollerLast30, d.editor30 with
     | some lastItem, some ed =>
       [(25, Effect.scrollIntoView lastItem), (25, Effect.focusEl ed),
        (25, Effect.dispatch (Target.el ed) tabEvt),
        (30, Effect.dispatch (Target.el ed) upEvt38)]
     | _, _ => [])
    ++ [(0, Effect.disconnect ObserverId.switchEnd)]

/-- Observer-lifecycle state of the channel-switch watcher: whether
`channelSwitchStart` is observing, whether `channelSwitchEnd` is observing,
and whether the 25 ms timeout that will attach `channelSwitchEnd` (scheduled
by the phase-1 callback) is still pending. -/
structure WatchState where
  startObs : Bool
  endObs : Bool
  pendingEnd : Bool
deriving DecidableEq

/-- Events that drive the watcher: an Alt+j/k keydown reaching the document
handler (with the chat container present or not), a mutation-batch delivery
to `channelSwitchStart`, the firing of the 25 ms attach timeout (with the
chat container present or not at that moment), a delivery to
`channelSwitchEnd` (with the new list item present or not), and the firing of
the 25 ms auto-focus timeout. -/
inductive WEvent where
  | altNav : Bool → WEvent
  | deliverStart : List MutationRec → WEvent
  | timerEnd : Bool → WEvent
  | deliverEnd : Bool → WEvent
  | timerFocus
deriving DecidableEq

/-- Advance condition of the v2.5 phase-1 callback (line 173): the truthiness
of the filtered `removedNodes` array, which holds for every delivered
batch. -/
def trigger25 (muts : List MutationRec) : Bool :=
  match muts with
  | [] => false
  | m :: _ => jsTruthyArray (m.removedNodes.filter (fun n => n.matchesChatMsgLi))

/-- Advance condition of the v3.0 phase-1 callback (part_000 line 146):
`removed.length > 0` for the first record. -/
def trigger30 (muts : List MutationRec) : Bool :=
  match muts with
  | [] => false
  | m :: _ => decide (0 < m.removedNodes.length)

/-- One transition of the watcher's observer-lifecycle state, parameterised by
the phase-1 advance condition.  `altNav`: the Alt+j/k branch attaches
`channelSwitchStart` when the chat container is present (v2.5 lines 101-106 /
v3.0 lines 209-210).  `deliverStart`: a delivery only occurs while observing;
on the advance condition the callback disconnects itself and schedules the
attach timeout.  `timerEnd`: the timeout attaches `channelSwitchEnd` when the
chat container is present (v3.0 guards it; in v2.5 `observe(null)` throws,
likewise leaving the observer unattached).  `deliverEnd`: when the new list
item is present the phase-2 callback disconnects itself (and schedules the
auto-focus).  `timerFocus`: the auto-focus body touches no observer. -/
def stepWith (trig : List MutationRec → Bool) (s : WatchState) (ev : WEvent) :
    WatchState :=
  match ev with
  | .altNav chat => if chat then { s with startObs := true } else s
  | .deliverStart muts =>
    if s.startObs ∧ trig muts then { s with startObs := false, pendingEnd := true }
    else s
  | .timerEnd chat =>
    if s.pendingEnd then { s with pendingEnd := false, endObs := s.endObs || chat }
    else s
  | .deliverEnd li => if s.endObs ∧ li then { s with endObs := false } else s
  | .timerFocus => s

/-- Watcher transition of the v2.5 userscript. -/
def stepW25 : WatchState → WEvent → WatchState := stepWith trigger25

/-- Watcher transition of the v3.0 module. -/
def stepW30 : WatchState → WEvent → WatchState := stepWith trigger30

/-- The three conceptual phases of the channel-switch watcher. -/
inductive Phase where
  | idle
  | watchingRemoval
  | watchingInsertion
deriving DecidableEq

/-- The phase determined by the observer-lifecycle state: phase 1 while
`channelSwitchStart` observes; phase 2 while `channelSwitchEnd` observes or
its attach timeout is pending; idle otherwise. -/
def phase (s : WatchState) : Phase :=
  if s.startObs then Phase.watchingRemoval
  else if s.endObs || s.pendingEnd then Phase.watchingInsertion
  else Phase.idle

/-- Both observers disconnected, no attach pending. -/
def watchIdle : WatchState := ⟨false, false, false⟩

/-- A mutation batch of one record that removed one node of the old message
list. -/
def demoBatch : List MutationRec := [⟨[⟨true⟩]⟩]

/-- One complete activation of the watcher: Alt+j/k with the chat container
present, the removal delivery, the attach timeout, the insertion delivery,
and the auto-focus timeout. -/
def activationEvents : List WEvent :=
  [WEvent.altNav true, WEvent.deliverStart demoBatch, WEvent.timerEnd true,
   WEvent.deliverEnd true, WEvent.timerFocus]

/-- Page-level hooks owned by the v3.0 module instance: the two keydown
listeners, the watcher's observer state, and the injected style element. -/
structure ModState where
  appHooked : Bool
  docHooked : Bool
  watch : WatchState
  styleAttached : Bool
deriving DecidableEq

/-- Shallow embedding of `DiscordVim.start` (part_000 lines 235-250):
`setupChannelSwitchObserver` creates both observers fresh and disconnected,
`addEventListener` is called on `#app-mount` (throwing when the query returns
`null`, hence `none`) and on `document`, and the style element is appended to
the head. -/
def start30 (d : Dom) (_s : ModState) : Option ModState :=
  match d.appMount with
  | none => none
  | some _ => some ⟨true, true, watchIdle, true⟩

/-- Shallow embedding of `DiscordVim.stop` (part_000 lines 252-262): the
app-mount listener is removed through an optional chain (a no-op when
`#app-mount` is absent), the document listener is removed, both observers are
disconnected (the pending attach timeout, if any, cannot be cancelled), and
the style element is detached when it has a parent. -/
def stop30 (d : Dom) (s : ModState) : ModState :=
  ⟨(if d.appMount.isSome then false else s.appHooked), false,
    ⟨false, false, s.watch.pendingEnd⟩, false⟩

/-- Run a sequence of watcher events against a module instance's observers;
watcher events touch neither the listeners nor the style element. -/
def runWatch30 (s : ModState) (evts : List WEvent) : ModState :=
  { s with watch := evts.foldl stepW30 s.watch }

/-- Whether a timed effect is a `dispatchEvent` call. -/
def isDispatchE (te : TimedEffect) : Bool :=
  match te.2 with
  | Effect.dispatch _ _ => true
  | _ => false

/-- The `dispatchEvent` calls of an effect sequence, in order. -/
def dispatches (l : List TimedEffect) : List TimedEffect := l.filter isDispatchE

/-- Whether a timed effect acts on the page: a synthetic event dispatch, a
click, a focus change, a scroll, a history move, or a selection collapse.
Propagation control (`stopImmediatePropagation` / `preventDefault`), observer
bookkeeping, console output and thrown errors are not page actions. -/
def isActionE (te : TimedEffect) : Bool :=
  match te.2 with
  | Effect.dispatch _ _ => true
  | Effect.click _ => true
  | Effect.focusEl _ => true
  | Effect.scrollIntoView _ => true
  | Effect.historyBack => true
  | Effect.historyForward => true
  | Effect.collapseSelection _ _ => true
  | _ => false

/-- The page actions of an effect sequence, in order. -/
def actionsOf (l : List TimedEffect) : List TimedEffect := l.filter isActionE

/-- Whether an effect sequence contains a thrown exception. -/
def hasErr (l : List TimedEffect) : Bool :=
  l.any (fun te => match te.2 with
    | Effect.jsError _ => true
    | _ => false)

/-- A page with none of the queried elements present and a non-typing active
element. -/
def emptyDom : Dom where
  appMount := none
  selectedMsg := none
  lastChatItem := none
  selectedAnchor25 := none
  selectedClickable25 := none
  selPlay30 := none
  selAnchor30 := none
  selClickable30 := none
  parentReplied25 := fun _ => false
  parentReplied30 := fun _ => false
  selectedHasReply25 := none
  selectedHasReply30 := none
  replyPreview25 := none
  replyPreview30 := none
  children0 := fun _ => none
  elemId := fun _ => ""
  byReplyId25 := fun _ => none
  byReplyId30 := fun _ => none
  textbox := none
  textContent := fun _ => ""
  backdrop25 := none
  backdrop30 := none
  jumpBtn25 := none
  jumpBtn30 := none
  scrollerLast25 := none
  scrollerLast30 := none
  editor25 := none
  editor30 := none
  chat25 := none
  chat30 := none
  chatMsgLi := none
  activeContentEditable := false
  activeNodeName := "DIV"

/-- A page whose active element is an `INPUT` (typing focus), with the root
container present. -/
def typingDom : Dom := { emptyDom with appMount := some 1, activeNodeName := "INPUT" }

/-- A consistent page for the Escape comparison: no backdrop, the jump button
present (element 7, a class beginning with `barButtonMain`, so both selector
variants find it), the composer editor present (element 3, matching both
editor selectors), and the scroller child present (element 4). -/
def escDom : Dom :=
  { emptyDom with
    appMount := some 1, jumpBtn25 := some 7, jumpBtn30 := some 7,
    editor25 := some 3, editor30 := some 3,
    scrollerLast25 := some 4, scrollerLast30 := some 4 }

/-- A page where the selected message (element 5) is also the last
chat-message list item, with the root container present (element 1). -/
def lastSelDom : Dom :=
  { emptyDom with appMount := some 1, selectedMsg := some 5, lastChatItem := some 5 }

/-- A page with a chat container (element 2), a new-list item (element 9),
the scroller child (element 4) and the composer editor (element 3) present,
for exercising the observer callbacks. -/
def chatDom : Dom :=
  { emptyDom with
    appMount := some 1, chat25 := some 2, chat30 := some 2,
    chatMsgLi := some 9,
    scrollerLast25 := some 4, scrollerLast30 := some 4,
    editor25 := some 3, editor30 := some 3 }

/-! ## Helper lemmas shared by the claim theorems -/

/-- stopImmediatePropagation is never emitted by the action part of the v2.5
root-container handler. -/
theorem noStop_appActions25 (d : Dom) (e : KeyEvent) :
    (0, Effect.stopImmediateProp) ∉ appActions25 d e := by
  unfold appActions25
  aesop

/-- stopImmediatePropagation is never emitted by `navigateMessage30`. -/
theorem noStop_nav30 (d : Dom) (dir : String) :
    (0, Effect.stopImmediateProp) ∉ navigateMessage30 d dir := by
  unfold navigateMessage30
  aesop

/-- stopImmediatePropagation is never emitted by `openAttachment30`. -/
theorem noStop_open30 (d : Dom) :
    (0, Effect.stopImmediateProp) ∉ openAttachment30 d := by
  unfold openAttachment30
  aesop

/-- stopImmediatePropagation is never emitted by `jumpToParent30`. -/
theorem noStop_jump30 (d : Dom) :
    (0, Effect.stopImmediateProp) ∉ jumpToParent30 d := by
  unfold jumpToParent30
  aesop

/-- Exact characterisation of when the v2.5 root-container handler emits
stopImmediatePropagation: Alt not held, not Ctrl+k, lowercase key one of
j, k, o, p. -/
theorem stopMem_app25 (d : Dom) (e : KeyEvent) :
    ((0, Effect.stopImmediateProp) ∈ appKeydown25 d e) ↔
      (e.altKey = false ∧ ¬(e.ctrlKey = true ∧ jsToLower e.key = "k") ∧
        (jsToLower e.key = "j" ∨ jsToLower e.key = "k" ∨ jsToLower e.key = "o"
          ∨ jsToLower e.key = "p")) := by
  by_cases h1 : e.ctrlKey = true ∧ jsToLower e.key = "k"
  · simp [appKeydown25, h1]
  · by_cases h2 : e.altKey = true
    · simp [appKeydown25, h1, h2, noStop_appActions25 d e]
    · by_cases h3 : jsToLower e.key = "j" ∨ jsToLower e.key = "k" ∨
          jsToLower e.key = "o" ∨ jsToLower e.key = "p"
      · simp [appKeydown25, h1, h2, h3, noStop_appActions25 d e]
      · simp [appKeydown25, h1, h2, h3, noStop_appActions25 d e]

/-- Exact characterisation of when the v3.0 root-container handler emits
stopImmediatePropagation: Alt not held, not Ctrl+k, and
`'jkop'.includes(key)` — a substring test. -/
theorem stopMem_app30 (d : Dom) (e : KeyEvent) :
    ((0, Effect.stopImmediateProp) ∈ appKeydown30 d e) ↔
      (e.altKey = false ∧ ¬(e.ctrlKey = true ∧ jsToLower e.key = "k") ∧
        jsIncludes "jkop" (jsToLower e.key) = true) := by
  have hns : ∀ l : List TimedEffect,
      l = (if isInputActive d then []
        else if jsToLower e.key = "j" then navigateMessage30 d "down"
        else if jsToLower e.key = "k" then navigateMessage30 d "up"
        else if jsToLower e.key = "o" then openAttachment30 d
        else if jsToLower e.key = "p" then jumpToParent30 d
        else []) → (0, Effect.stopImmediateProp) ∉ l := by
    intro l hl
    subst hl
    repeat' split
    all_goals
      simp [noStop_nav30, noStop_open30, noStop_jump30]
  have hns' := hns _ rfl
  by_cases h1 : e.ctrlKey = true ∧ jsToLower e.key = "k"
  · simp [appKeydown30, h1]
  · by_cases h2 : e.altKey = true
    · simp [appKeydown30, h1, h2, hns']
    · by_cases h3 : jsIncludes "jkop" (jsToLower e.key) = true
      · simp [appKeydown30, h1, h2, h3, hns']
      · simp [appKeydown30, h1, h2, h3, hns']

/-- A leading suppression effect does not change the page actions of a
handler's effect sequence. -/
theorem actionsOf_stopFx_append (C : Prop) [Decidable C]
    (l : List TimedEffect) :
    actionsOf ((if C then [(0, Effect.stopImmediateProp)] else []) ++ l) =
      actionsOf l := by
  split_ifs <;> simp [actionsOf, isActionE]

/-- A leading suppression effect does not change the dispatches of a
handler's effect sequence. -/
theorem dispatches_stopFx_append (C : Prop) [Decidable C]
    (l : List TimedEffect) :
    dispatches ((if C then [(0, Effect.stopImmediateProp)] else []) ++ l) =
      dispatches l := by
  split_ifs <;> simp [dispatches, isDispatchE]

/-- On a one-character string, `'jkop'.includes` coincides with membership in
the four characters. -/
theorem jsIncludes_jkop_single (c : Char) :
    jsIncludes "jkop" ⟨[c]⟩ =
      (c == 'j' || (c == 'k' || (c == 'o' || c == 'p'))) := by
  have h : "jkop".data = ['j', 'k', 'o', 'p'] := rfl
  simp [jsIncludes, h, listSub, listPre]

/-- A one-character string equals a string literal with the given character
list exactly when the characters agree. -/
theorem string_single_eq_iff (c b : Char) (s : String) (hs : s.data = [b]) :
    ((⟨[c]⟩ : String) = s) ↔ c = b := by
  constructor
  · intro hh
    have h2 := congrArg String.data hh
    rw [hs] at h2
    simpa using h2
  · intro hh
    subst hh
    cases s with
    | mk dat =>
      cases hs
      rfl

/-- `hasErr` distributes over list append. -/
theorem hasErr_append (l1 l2 : List TimedEffect) :
    hasErr (l1 ++ l2) = (hasErr l1 || hasErr l2) := by
  simp [hasErr]

/-- `hasErr` on a cons cell. -/
theorem hasErr_cons (te : TimedEffect) (l : List TimedEffect) :
    hasErr (te :: l) =
      ((match te.2 with
        | Effect.jsError _ => true
        | _ => false) || hasErr l) := by
  simp [hasErr]

/-- `hasErr` on the empty effect sequence. -/
theorem hasErr_nil : hasErr [] = false := rfl

/-- `navigateMessage30` throws only when both the selected message and the
root container are absent; with the root container present it never
throws. -/
theorem noErr_nav30 (d : Dom) (a : Nat) (h : d.appMount = some a)
    (dir : String) : hasErr (navigateMessage30 d dir) = false := by
  unfold navigateMessage30
  repeat' split
  all_goals simp_all [hasErr]

/-- `openAttachment30` never throws. -/
theorem noErr_open30 (d : Dom) : hasErr (openAttachment30 d) = false := by
  unfold openAttachment30
  repeat' split
  all_goals simp [hasErr]

/-- `jumpToParent30` never throws: every dereference is guarded or
optional-chained. -/
theorem noErr_jump30 (d : Dom) : hasErr (jumpToParent30 d) = false := by
  unfold jumpToParent30
  repeat' split
  all_goals simp only [hasErr, List.any_cons, List.any_nil]
  all_goals (repeat' split)
  all_goals simp

/-- `focusTextbox30` never throws. -/
theorem noErr_ftb30 (d : Dom) : hasErr (focusTextbox30 d) = false := by
  unfold focusTextbox30
  repeat' split
  all_goals simp [hasErr]

/-- `focusLastMessage30` never throws. -/
theorem noErr_flm30 (d : Dom) : hasErr (focusLastMessage30 d) = false := by
  unfold focusLastMessage30
  repeat' split
  all_goals simp [hasErr]

/-! ## Claim theorems -/

/-- C1 (counterexample): the claim says the first-phase observer advances
only when a removed node matches `'[data-list-id="chat-messages"] li'` and
otherwise takes no action.  In fact the v2.5 callback advances (disconnects
itself and schedules the phase-2 attach) on a batch whose first record
removed nothing at all, because it tests the filter result — an array, hence
truthy; and the v3.0 callback advances on a batch whose only removed node
does not match the selector. -/
theorem c1_counterexample :
    (0, Effect.disconnect ObserverId.switchStart) ∈ cbStart25 emptyDom [⟨[]⟩] ∧
    (0, Effect.disconnect ObserverId.switchStart) ∈
      cbStart30 emptyDom [⟨[⟨false⟩]⟩] := by
  decide

/-- C1 (amended): for every activation, the first-phase observer advances to
the second phase on every delivered mutation batch in v2.5 (the truthiness
test on the filtered array never fails), and in v3.0 exactly when the batch's
first record removed at least one node, whether or not any removed node
matches the old-message-list selector. -/
theorem c1_advance_condition (d : Dom) (m : MutationRec)
    (rest : List MutationRec) :
    ((0, Effect.disconnect ObserverId.switchStart) ∈ cbStart25 d (m :: rest)) ∧
    (((0, Effect.disconnect ObserverId.switchStart) ∈ cbStart30 d (m :: rest)) ↔
      m.removedNodes ≠ []) := by
  constructor
  · unfold cbStart25
    simp only [jsTruthyArray, if_true]
    cases d.chat25 <;> simp
  · by_cases h : 0 < m.removedNodes.length
    · cases hc : d.chat30 <;>
        simp [cbStart30, h, hc, List.ne_nil_of_length_pos h]
    · simp only [Nat.pos_iff_ne_zero, ne_eq, not_not] at h
      simp [cbStart30, List.length_eq_zero.mp h]

/-- C2: the channel-switch watcher passes through exactly the states idle →
watching-for-removal → watching-for-insertion → idle.  The first two
conjuncts trace one complete activation (Alt+j/k keydown, removal delivery,
attach timeout, insertion delivery, auto-focus timeout) through the phases
for both versions, ending idle with both observers disconnected.  The next
four conjuncts show each observer's observing flag is cleared whenever its
trigger condition holds on a delivery — the callback disconnects itself the
first time it fires, so each phase fires at most once per activation.  The
last four conjuncts tie the state machine to the embedded callbacks: the
phase-1 callback emits its self-disconnect exactly when its trigger holds,
and the phase-2 callback exactly when the new list item is present. -/
theorem c2_watcher_states :
    ((List.scanl stepW25 watchIdle activationEvents).map phase =
      [Phase.idle, Phase.watchingRemoval, Phase.watchingInsertion,
       Phase.watchingInsertion, Phase.idle, Phase.idle]) ∧
    ((List.scanl stepW30 watchIdle activationEvents).map phase =
      [Phase.idle, Phase.watchingRemoval, Phase.watchingInsertion,
       Phase.watchingInsertion, Phase.idle, Phase.idle]) ∧
    (∀ s muts, (stepW25 s (WEvent.deliverStart muts)).startObs =
       (s.startObs && !trigger25 muts)) ∧
    (∀ s muts, (stepW30 s (WEvent.deliverStart muts)).startObs =
       (s.startObs && !trigger30 muts)) ∧
    (∀ s li, (stepW25 s (WEvent.deliverEnd li)).endObs = (s.endObs && !li)) ∧
    (∀ s li, (stepW30 s (WEvent.deliverEnd li)).endObs = (s.endObs && !li)) ∧
    (∀ d muts, ((0, Effect.disconnect ObserverId.switchStart) ∈
      cbStart25 d muts ↔ trigger25 muts = true)) ∧
    (∀ d muts, ((0, Effect.disconnect ObserverId.switchStart) ∈
      cbStart30 d muts ↔ trigger30 muts = true)) ∧
    (∀ d, ((0, Effect.disconnect ObserverId.switchEnd) ∈ cbEnd25 d ↔
      d.chatMsgLi.isSome = true)) ∧
    (∀ d, ((0, Effect.disconnect ObserverId.switchEnd) ∈ cbEnd30 d ↔
      d.chatMsgLi.isSome = true)) := by
  refine ⟨by decide, by decide, ?_, ?_, ?_, ?_, ?_, ?_, ?_, ?_⟩
  · intro s muts
    cases s with
    | mk so eo pe => cases so <;> cases h : trigger25 muts <;>
        simp [stepW25, stepWith, h]
  · intro s muts
    cases s with
    | mk so eo pe => cases so <;> cases h : trigger30 muts <;>
        simp [stepW30, stepWith, h]
  · intro s li
    cases s with
    | mk so eo pe => cases eo <;> cases li <;> simp [stepW25, stepWith]
  · intro s li
    cases s with
    | mk so eo pe => cases eo <;> cases li <;> simp [stepW30, stepWith]
  · intro d muts
    cases muts with
    | nil => simp [cbStart25, trigger25]
    | cons m rest =>
      unfold cbStart25 trigger25
      simp only [jsTruthyArray, if_true]
      cases d.chat25 <;> simp
  · intro d muts
    cases muts with
    | nil => simp [cbStart30, trigger30]
    | cons m rest =>
      by_cases h : 0 < m.removedNodes.length
      · cases hc : d.chat30 <;> simp [cbStart30, trigger30, h, hc]
      · simp [cbStart30, trigger30, h]
  · intro d
    unfold cbEnd25
    cases d.chatMsgLi with
    | none => simp
    | some li =>
      cases d.scrollerLast25 <;> cases d.editor25 <;> simp
  · intro d
    unfold cbEnd30
    cases d.chatMsgLi with
    | none => simp
    | some li =>
      cases d.scrollerLast30 <;> cases d.editor30 <;> simp

/-- C3: the second-phase observer performs the auto-focus — scrolling the
last message-list item (the second-to-last scroller child) into view,
focusing the composer editor, dispatching a synthetic Tab and, 5 ms later, a
synthetic ArrowUp at it — only after `'[data-list-id="chat-messages"] li'`
is present in the document, and disconnects itself at that trigger: when the
item is absent both callbacks do nothing and keep observing, and when it is
present (and the scroller child and editor exist) each callback emits
exactly the auto-focus sequence plus its self-disconnect. -/
theorem c3_phase2_autofocus (d : Dom) :
    (d.chatMsgLi = none → cbEnd25 d = [] ∧ cbEnd30 d = []) ∧
    (∀ li lastI ed, d.chatMsgLi = some li → d.scrollerLast25 = some lastI →
      d.editor25 = some ed →
      cbEnd25 d =
        [(25, Effect.scrollIntoView lastI), (25, Effect.focusEl ed),
         (25, Effect.dispatch (Target.el ed) tabEvt),
         (30, Effect.dispatch (Target.el ed) upEvt38),
         (0, Effect.disconnect ObserverId.switchEnd)]) ∧
    (∀ li lastI ed, d.chatMsgLi = some li → d.scrollerLast30 = some lastI →
      d.editor30 = some ed →
      cbEnd30 d =
        [(25, Effect.scrollIntoView lastI), (25, Effect.focusEl ed),
         (25, Effect.dispatch (Target.el ed) tabEvt),
         (30, Effect.dispatch (Target.el ed) upEvt38),
         (0, Effect.disconnect ObserverId.switchEnd)]) := by
  refine ⟨?_, ?_, ?_⟩
  · intro h
    simp [cbEnd25, cbEnd30, h]
  · intro li lastI ed h1 h2 h3
    simp [cbEnd25, h1, h2, h3]
  · intro li lastI ed h1 h2 h3
    simp [cbEnd30, h1, h2, h3]

/-- C3 (witness): on a page with the new list item, the scroller child and
the editor present, both phase-2 callbacks emit exactly the auto-focus
sequence and the self-disconnect. -/
theorem c3_witness :
    chatDom.chatMsgLi = some 9 ∧
    cbEnd25 chatDom =
      [(25, Effect.scrollIntoView 4), (25, Effect.focusEl 3),
       (25, Effect.dispatch (Target.el 3) tabEvt),
       (30, Effect.dispatch (Target.el 3) upEvt38),
       (0, Effect.disconnect ObserverId.switchEnd)] ∧
    cbEnd30 chatDom =
      [(25, Effect.scrollIntoView 4), (25, Effect.focusEl 3),
       (25, Effect.dispatch (Target.el 3) tabEvt),
       (30, Effect.dispatch (Target.el 3) upEvt38),
       (0, Effect.disconnect ObserverId.switchEnd)] :=
  ⟨rfl, (c3_phase2_autofocus chatDom).2.1 9 4 3 rfl rfl rfl,
    (c3_phase2_autofocus chatDom).2.2 9 4 3 rfl rfl rfl⟩

/-- C4 (counterexample): the claim says every handler is a silent no-op
without exception when a queried element is absent.  In the v2.5 userscript,
an `i` keydown on a page with no `div[role="textbox"]` calls
`preventDefault` and then throws a TypeError at `el.focus()` (line 115). -/
theorem c4_counterexample :
    docKeydown25 emptyDom ⟨"i", false, false, false⟩ =
      [(0, Effect.preventDefault), (0, Effect.jsError "focus of null")] := by
  decide

/-- C4 (amended): for the version 3.0 module, every keydown delivered to
either handler on a page whose root container exists runs without throwing,
and so do both of its mutation-observer callbacks (on any non-empty batch):
missing elements yield silent early returns.  (The v2.5 userscript's i,
Esc/Ctrl+[ and p handlers and both its observer callbacks throw instead, as
the counterexample shows.) -/
theorem c4_module_handlers_total (d : Dom) (e : KeyEvent) (a : Nat)
    (h : d.appMount = some a) :
    hasErr (appKeydown30 d e) = false ∧ hasErr (docKeydown30 d e) = false ∧
    (∀ m rest, hasErr (cbStart30 d (m :: rest)) = false) ∧
    hasErr (cbEnd30 d) = false := by
  refine ⟨?_, ?_, ?_, ?_⟩
  · simp only [appKeydown30]
    split_ifs <;>
      simp [hasErr_append, hasErr_cons, hasErr_nil, noErr_nav30 d a h,
        noErr_open30, noErr_jump30]
  · simp only [docKeydown30]
    split_ifs
    all_goals (repeat' split)
    all_goals simp [hasErr_cons, hasErr_nil, noErr_ftb30, noErr_flm30]
  · intro m rest
    by_cases hl : 0 < m.removedNodes.length
    · cases hc : d.chat30 <;> simp [cbStart30, hl, hc, hasErr]
    · simp [cbStart30, hl, hasErr]
  · cases hq : d.chatMsgLi with
    | none => simp [cbEnd30, hq, hasErr]
    | some li =>
      cases hs : d.scrollerLast30 <;> cases he : d.editor30 <;>
        simp [cbEnd30, hq, hs, he, hasErr]

/-- C4 (witness): at a concrete page with the root container present and
every other element missing, the module's handlers and observer callbacks
produce no exception. -/
theorem c4_witness :
    hasErr (appKeydown30 typingDom ⟨"i", false, false, false⟩) = false ∧
    hasErr (docKeydown30 typingDom ⟨"i", false, false, false⟩) = false ∧
    hasErr (cbStart30 typingDom [⟨[⟨true⟩]⟩]) = false ∧
    hasErr (cbEnd30 typingDom) = false := by
  have h := c4_module_handlers_total typingDom ⟨"i", false, false, false⟩ 1 rfl
  exact ⟨h.1, h.2.1, h.2.2.1 ⟨[⟨true⟩]⟩ [], h.2.2.2⟩

/-- C5 (counterexample): on a consistent page (no backdrop, jump button
element 7, editor element 3 matching both versions' selectors), an Escape
keydown makes the v2.5 document handler click the jump button, focus the
editor and dispatch Tab plus a delayed ArrowUp, while the v3.0 handler
clicks the jump button and returns: the two versions do not invoke the same
DOM actions or dispatch the same synthetic events. -/
theorem c5_counterexample :
    docKeydown25 escDom ⟨"Escape", false, false, false⟩ ≠
      docKeydown30 escDom ⟨"Escape", false, false, false⟩ := by
  decide

/-- C5 (amended): the two versions agree on the propagation-suppression
decision for every keydown whose lowercase key is a single character (their
DOM actions still differ, as the counterexample shows). -/
theorem c5_suppression_agreement (d : Dom) (e : KeyEvent) (c : Char)
    (h : jsToLower e.key = ⟨[c]⟩) :
    (((0, Effect.stopImmediateProp) ∈ appKeydown25 d e) ↔
     ((0, Effect.stopImmediateProp) ∈ appKeydown30 d e)) := by
  rw [stopMem_app25, stopMem_app30, h]
  rw [jsIncludes_jkop_single,
    string_single_eq_iff c 'j' "j" rfl, string_single_eq_iff c 'k' "k" rfl,
    string_single_eq_iff c 'o' "o" rfl, string_single_eq_iff c 'p' "p" rfl]
  simp [or_assoc]

/-- C5 (witness): at the single-character key `o` the two versions'
suppression decisions agree. -/
theorem c5_witness :
    ((0, Effect.stopImmediateProp) ∈
      appKeydown25 emptyDom ⟨"o", false, false, false⟩) ↔
    ((0, Effect.stopImmediateProp) ∈
      appKeydown30 emptyDom ⟨"o", false, false, false⟩) :=
  c5_suppression_agreement emptyDom ⟨"o", false, false, false⟩ 'o' rfl

/-- C6 (counterexample): the claim says propagation is stopped exactly when
the lowercase key is j, k, o or p.  The v3.0 handler receives a keydown
whose key is `"jk"` — not one of the four — and still stops immediate
propagation, because `'jkop'.includes` is a substring test. -/
theorem c6_counterexample :
    appKeydown30 typingDom ⟨"jk", false, false, false⟩ =
      [(0, Effect.stopImmediateProp)] ∧
    jsToLower "jk" ≠ "j" ∧ jsToLower "jk" ≠ "k" ∧ jsToLower "jk" ≠ "o" ∧
    jsToLower "jk" ≠ "p" := by
  decide

/-- C6 (amended): the root-container handler stops immediate propagation
exactly when Alt is not held, the event is not Ctrl+k, and the lowercase key
is j, k, o or p in the v2.5 userscript — respectively any contiguous
substring of `'jkop'` (including the empty string) in the v3.0 module.  The
characterisation holds for every page state, in particular while the active
element is an input, textarea or content-editable node, since the
suppression precedes the typing-focus check; and a Ctrl+k keydown produces
no effect at all in either version. -/
theorem c6_suppression (d : Dom) (e : KeyEvent) :
    (((0, Effect.stopImmediateProp) ∈ appKeydown25 d e) ↔
      (e.altKey = false ∧ ¬(e.ctrlKey = true ∧ jsToLower e.key = "k") ∧
        (jsToLower e.key = "j" ∨ jsToLower e.key = "k" ∨ jsToLower e.key = "o"
          ∨ jsToLower e.key = "p"))) ∧
    (((0, Effect.stopImmediateProp) ∈ appKeydown30 d e) ↔
      (e.altKey = false ∧ ¬(e.ctrlKey = true ∧ jsToLower e.key = "k") ∧
        jsIncludes "jkop" (jsToLower e.key) = true)) ∧
    (e.ctrlKey = true → jsToLower e.key = "k" →
      appKeydown25 d e = [] ∧ appKeydown30 d e = []) := by
  refine ⟨stopMem_app25 d e, stopMem_app30 d e, ?_⟩
  intro hc hk
  constructor
  · simp [appKeydown25, hc, hk]
  · simp [appKeydown30, hc, hk]

/-- C6 (witness): a Ctrl+k keydown, even while typing focus is active,
produces no effect in either version. -/
theorem c6_witness :
    appKeydown25 typingDom ⟨"k", false, true, false⟩ = [] ∧
    appKeydown30 typingDom ⟨"k", false, true, false⟩ = [] :=
  (c6_suppression typingDom ⟨"k", false, true, false⟩).2.2 rfl rfl

/-- C7 (counterexample): the claim says every j/k keydown (Alt not held, not
Ctrl+k, no typing focus) dispatches exactly one synthetic arrow event.  With
the selected message equal to the last chat-message item, a j keydown
dispatches nothing in either version: the only effect is the propagation
suppression. -/
theorem c7_counterexample :
    appKeydown25 lastSelDom ⟨"j", false, false, false⟩ =
      [(0, Effect.stopImmediateProp)] ∧
    appKeydown30 lastSelDom ⟨"j", false, false, false⟩ =
      [(0, Effect.stopImmediateProp)] := by
  decide

/-- C7 (amended): for every keydown whose lowercase key is j or k, with Alt
not held, not Ctrl+k, no typing focus and the root container present, the
router dispatches exactly one synthetic bubbling ArrowDown (j) / ArrowUp (k)
keydown — targeted at the selected message when one exists and otherwise at
the root container — except that for j it dispatches nothing when the
selected message compares equal to the last chat-message item: loose
equality in v2.5 (so no-selection with an empty message list is also a
no-op), strict equality in v3.0.  The v3.0 event additionally carries
`keyCode` (`navEvt30` versus `navEvt25`). -/
theorem c7_nav_dispatch (d : Dom) (e : KeyEvent) (a : Nat)
    (hm : d.appMount = some a)
    (hk : jsToLower e.key = "j" ∨ jsToLower e.key = "k")
    (_halt : e.altKey = false)
    (hck : ¬(e.ctrlKey = true ∧ jsToLower e.key = "k"))
    (hty : isInputActive d = false) :
    dispatches (appKeydown25 d e) =
      (if jsToLower e.key = "j" ∧ jsLooseEq d.selectedMsg d.lastChatItem = true
       then []
       else [(0, Effect.dispatch (Target.el (d.selectedMsg.getD a))
               (navEvt25 (jsToLower e.key)))]) ∧
    dispatches (appKeydown30 d e) =
      (if jsToLower e.key = "j" ∧ jsStrictEq d.selectedMsg d.lastChatItem = true
       then []
       else [(0, Effect.dispatch (Target.el (d.selectedMsg.getD a))
               (navEvt30 (if jsToLower e.key = "j" then "down" else "up")))]) := by
  constructor
  · have hsplit : dispatches (appKeydown25 d e) =
        dispatches (appActions25 d e) := by
      simp only [appKeydown25]
      rw [if_neg hck]
      exact dispatches_stopFx_append _ _
    rw [hsplit]
    rcases hk with hj | hkk
    · by_cases hle : jsLooseEq d.selectedMsg d.lastChatItem = true
      · simp [appActions25, hty, hj, hle, dispatches]
      · cases hsel : d.selectedMsg with
        | some m =>
          simp [appActions25, hty, hj, hle, hsel, dispatches, isDispatchE]
        | none =>
          simp [appActions25, hty, hj, hle, hsel, hm, dispatches, isDispatchE]
    · have hjne : ¬(jsToLower e.key = "j") := by
        rw [hkk]; decide
      cases hsel : d.selectedMsg with
      | some m =>
        simp [appActions25, hty, hkk, hjne, hsel, dispatches, isDispatchE]
      | none =>
        simp [appActions25, hty, hkk, hjne, hsel, hm, dispatches, isDispatchE]
  · have hsplit : dispatches (appKeydown30 d e) =
        dispatches (if isInputActive d then []
          else if jsToLower e.key = "j" then navigateMessage30 d "down"
          else if jsToLower e.key = "k" then navigateMessage30 d "up"
          else if jsToLower e.key = "o" then openAttachment30 d
          else if jsToLower e.key = "p" then jumpToParent30 d
          else []) := by
      simp only [appKeydown30]
      rw [if_neg hck]
      exact dispatches_stopFx_append _ _
    rw [hsplit]
    rcases hk with hj | hkk
    · by_cases hle : jsStrictEq d.selectedMsg d.lastChatItem = true
      · simp [hty, hj, navigateMessage30, hle, dispatches]
      · cases hsel : d.selectedMsg with
        | some m =>
          simp [hty, hj, navigateMessage30, hle, hsel, dispatches, isDispatchE]
        | none =>
          simp [hty, hj, navigateMessage30, hle, hsel, hm, dispatches,
            isDispatchE]
    · have hjne : ¬(jsToLower e.key = "j") := by
        rw [hkk]; decide
      cases hsel : d.selectedMsg with
      | some m =>
        simp [hty, hkk, hjne, navigateMessage30, hsel, dispatches, isDispatchE]
      | none =>
        simp [hty, hkk, hjne, navigateMessage30, hsel, hm, dispatches,
          isDispatchE]

/-- C7 (witness): a k keydown with no selected message dispatches exactly one
synthetic ArrowUp at the root container in both versions. -/
theorem c7_witness :
    dispatches (appKeydown25 escDom ⟨"k", false, false, false⟩) =
      [(0, Effect.dispatch (Target.el 1) (navEvt25 "k"))] ∧
    dispatches (appKeydown30 escDom ⟨"k", false, false, false⟩) =
      [(0, Effect.dispatch (Target.el 1) (navEvt30 "up"))] := by
  have h := c7_nav_dispatch escDom ⟨"k", false, false, false⟩ 1 rfl
    (Or.inr rfl) rfl (by decide) rfl
  simpa using h

/-- C8: whenever the active element is content-editable or named INPUT or
TEXTAREA, the j, k, o and p branches of both root-container handlers perform
no page action — no synthetic event, click, focus, scroll or selection
change — and an `i` keydown produces no effect at all in either document
handler. -/
theorem c8_typing_guard (d : Dom) (e : KeyEvent) (h : isInputActive d = true) :
    actionsOf (appKeydown25 d e) = [] ∧ actionsOf (appKeydown30 d e) = [] ∧
    (jsToLower e.key = "i" → docKeydown25 d e = [] ∧ docKeydown30 d e = []) := by
  have h25 : appActions25 d e = [] := by simp [appActions25, h]
  refine ⟨?_, ?_, ?_⟩
  · simp only [appKeydown25]
    split_ifs <;> simp_all [actionsOf, isActionE, h25]
  · simp only [appKeydown30]
    split_ifs <;> simp_all [actionsOf, isActionE]
  · intro hk
    have hne1 : ¬(e.key = "[") := by
      intro hh
      rw [hh] at hk
      exact absurd hk (by decide)
    have hne2 : ¬(e.key = "Escape") := by
      intro hh
      rw [hh] at hk
      exact absurd hk (by decide)
    have h' : (d.activeContentEditable = true ∨ d.activeNodeName = "INPUT") ∨
        d.activeNodeName = "TEXTAREA" := by
      simpa [isInputActive] using h
    have k1 : ¬(jsToLower e.key = "h") := by rw [hk]; decide
    have k2 : ¬(jsToLower e.key = "l") := by rw [hk]; decide
    have k3 : ¬(jsToLower e.key = "j" ∨ jsToLower e.key = "k") := by
      rw [hk]; decide
    have hesc : ¬(e.key = "Escape" ∨ (e.ctrlKey ∧ e.key = "[")) := by
      rintro (hh | ⟨-, hh⟩)
      · exact hne2 hh
      · exact hne1 hh
    constructor
    · have hi : ¬(jsToLower e.key = "i" ∧ ¬d.activeContentEditable ∧
          d.activeNodeName ≠ "INPUT" ∧ d.activeNodeName ≠ "TEXTAREA" ∧
          ¬(e.ctrlKey ∧ e.shiftKey)) := by
        rintro ⟨-, hce, hni, hnt, -⟩
        rcases h' with (h1 | h1) | h1
        · exact hce h1
        · exact hni h1
        · exact hnt h1
      have hbr : ¬(e.ctrlKey ∧ e.key = "[" ∧ d.backdrop25.isSome) := by
        rintro ⟨-, hh, -⟩
        exact hne1 hh
      by_cases halt : e.altKey = true
      · simp [docKeydown25, halt, k1, k2, k3]
      · simp [docKeydown25, halt, k1, k2, k3, hi, hbr, hesc]
        intro _ hce hni hnt
        rcases h' with (h1 | h1) | h1 <;> simp_all
    · have hi : ¬(jsToLower e.key = "i" ∧ ¬isInputActive d ∧
          ¬(e.ctrlKey ∧ e.shiftKey)) := by
        rintro ⟨-, hni, -⟩
        exact hni h
      by_cases halt : e.altKey = true
      · simp [docKeydown30, halt, k1, k2, k3]
      · simp [docKeydown30, halt, k1, k2, k3, hi, hesc]
        intro _ hni
        simp [h] at hni

/-- C8 (witness): with an INPUT focused, an `i` keydown performs no page
action in any of the four handlers. -/
theorem c8_witness :
    actionsOf (appKeydown25 typingDom ⟨"i", false, false, false⟩) = [] ∧
    actionsOf (appKeydown30 typingDom ⟨"i", false, false, false⟩) = [] ∧
    docKeydown25 typingDom ⟨"i", false, false, false⟩ = [] ∧
    docKeydown30 typingDom ⟨"i", false, false, false⟩ = [] := by
  have h := c8_typing_guard typingDom ⟨"i", false, false, false⟩ rfl
  exact ⟨h.1, h.2.1, (h.2.2 rfl).1, (h.2.2 rfl).2⟩

/-- C9: pressing j while the currently selected message is the last
chat-message item is a complete no-op in both versions: no synthetic
ArrowDown is dispatched and no page action is performed, whatever the
modifiers or the typing-focus state. -/
theorem c9_last_message_noop (d : Dom) (e : KeyEvent) (m : Nat)
    (hk : jsToLower e.key = "j") (hsel : d.selectedMsg = some m)
    (hlast : d.lastChatItem = some m) :
    actionsOf (appKeydown25 d e) = [] ∧ actionsOf (appKeydown30 d e) = [] := by
  have h25 : appActions25 d e = [] := by
    by_cases hty : isInputActive d
    · simp [appActions25, hty]
    · simp [appActions25, hty, hk, hsel, hlast, jsLooseEq]
  have h30 : navigateMessage30 d "down" = [] := by
    by_cases hty : isInputActive d
    · simp [navigateMessage30, hty]
    · simp [navigateMessage30, hty, hsel, hlast, jsStrictEq]
  constructor
  · simp only [appKeydown25]
    split_ifs <;> simp_all [actionsOf, isActionE, h25]
  · simp only [appKeydown30]
    split_ifs <;> simp_all [actionsOf, isActionE, h30]

/-- C9 (witness): at a page where the selected message (element 5) is the
last chat-message item, a j keydown performs no page action in either
version. -/
theorem c9_witness :
    actionsOf (appKeydown25 lastSelDom ⟨"j", false, false, false⟩) = [] ∧
    actionsOf (appKeydown30 lastSelDom ⟨"j", false, false, false⟩) = [] :=
  c9_last_message_noop lastSelDom ⟨"j", false, false, false⟩ 5 rfl rfl rfl

/-- C10: calling `stop()` after a successful `start()` leaves the page
without residual hooks — whatever watcher activity happened in between —
both keydown listeners are removed, both mutation observers are
disconnected, and the injected style element is detached. -/
theorem c10_round_trip (d : Dom) (s0 : ModState) (m : ModState)
    (evts : List WEvent) (h : start30 d s0 = some m) :
    (stop30 d (runWatch30 m evts)).appHooked = false ∧
    (stop30 d (runWatch30 m evts)).docHooked = false ∧
    (stop30 d (runWatch30 m evts)).watch.startObs = false ∧
    (stop30 d (runWatch30 m evts)).watch.endObs = false ∧
    (stop30 d (runWatch30 m evts)).styleAttached = false := by
  cases hm : d.appMount with
  | none =>
    rw [start30, hm] at h
    cases h
  | some a => simp [stop30, runWatch30, hm]

/-- C10 (witness): starting on a page with the root container, running one
complete watcher activation and stopping leaves no hooks. -/
theorem c10_witness :
    (stop30 typingDom (runWatch30 ⟨true, true, watchIdle, true⟩
        activationEvents)).appHooked = false ∧
    (stop30 typingDom (runWatch30 ⟨true, true, watchIdle, true⟩
        activationEvents)).docHooked = false ∧
    (stop30 typingDom (runWatch30 ⟨true, true, watchIdle, true⟩
        activationEvents)).watch.startObs = false ∧
    (stop30 typingDom (runWatch30 ⟨true, true, watchIdle, true⟩
        activationEvents)).watch.endObs = false ∧
    (stop30 typingDom (runWatch30 ⟨true, true, watchIdle, true⟩
        activationEvents)).styleAttached = false :=
  c10_round_trip typingDom ⟨false, false, watchIdle, false⟩
    ⟨true, true, watchIdle, true⟩ activationEvents rfl
